import Mathlib

/-!
Verification of the legality rules engine of `app/rules_engine.py`
(nyc-curb-cv-tool), against its natural-language specification.

The engine is a pure decision procedure: it maps a frame context, a
vehicle observation and an optional zone to a `LegalityDecision`
(status, reason codes, confidence).  The Python enumerations of
`app/schemas.py` become inductive types; reason codes stay strings
because the status derivation inspects string suffixes; confidence
values are exact decimal literals, modelled as rationals.
-/

namespace CurbRules

/-- Model of `VehicleType` from `app/schemas.py`. -/
inductive VehicleType where
  | passenger
  | commercial
  | bus
  | bike
  | scooter
  | other
  deriving DecidableEq, Repr

/-- The string a `VehicleType` value denotes in Python
(used as dictionary key and in comparisons). -/
def VehicleType.toStr : VehicleType → String
  | .passenger => "passenger"
  | .commercial => "commercial"
  | .bus => "bus"
  | .bike => "bike"
  | .scooter => "scooter"
  | .other => "other"

/-- Model of `LaneType` from `app/schemas.py`. -/
inductive LaneType where
  | travel
  | bus
  | bike
  | parking
  | unknown
  deriving DecidableEq, Repr

/-- The string a `LaneType` value denotes in Python
(interpolated into the `..._lane_occupied` reason code). -/
def LaneType.toStr : LaneType → String
  | .travel => "travel"
  | .bus => "bus"
  | .bike => "bike"
  | .parking => "parking"
  | .unknown => "unknown"

/-- Model of `ZoneType` from `app/schemas.py`. -/
inductive ZoneType where
  | parking
  | no_parking
  | bus_lane
  | bike_lane
  | loading_zone
  | fire_hydrant
  | double_parking
  | travel_lane
  deriving DecidableEq, Repr

/-- Model of the borough literal of `FrameContext`. -/
inductive Borough where
  | manhattan
  | brooklyn
  | queens
  | bronx
  | staten_island
  deriving DecidableEq, Repr

/-- The UTC timestamp of a frame, modelled by its hour field — the only
component `RulesEngine` reads (`frame.timestamp_utc.hour`). -/
structure UtcTimestamp where
  hour : Nat
  deriving DecidableEq, Repr

/-- Model of `FrameContext` from `app/schemas.py`. -/
structure FrameContext where
  frame_id : String
  camera_id : String
  timestamp_utc : UtcTimestamp
  borough : Borough
  segment_id : String
  deriving DecidableEq, Repr

/-- Model of `VehicleObservation` from `app/schemas.py`.  `curb_distance_m` is a
float the rules engine never reads; it is modelled as a rational. -/
structure VehicleObservation where
  track_id : String
  vehicle_type : VehicleType
  lane_type : LaneType
  is_double_parked : Bool := false
  is_obstructing : Bool := false
  curb_distance_m : ℚ := 0
  dwell_time_seconds : Int := 0
  deriving DecidableEq, Repr

/-- Model of `ZoneDefinition` from `app/schemas.py`. -/
structure ZoneDefinition where
  zone_id : String
  zone_type : ZoneType
  polygon : List (ℚ × ℚ) := []
  label : String := ""
  deriving DecidableEq, Repr

/-- The status literal of `LegalityDecision`. -/
inductive Status where
  | legal
  | likely_illegal
  | uncertain
  | in_transit
  deriving DecidableEq, Repr

/-- Model of `LegalityDecision` from `app/schemas.py`. -/
structure LegalityDecision where
  track_id : String
  status : Status
  reason_codes : List String
  confidence : ℚ
  deriving DecidableEq, Repr

/-- The loaded rule configuration (the YAML document).  The engine reads
only the `dwell_time_limits` key: `self.rules.get("dwell_time_limits", {})`
yields the empty mapping when the key is absent, modelled by `none`.
The mapping itself is an association list from vehicle-type strings to
integer limits. -/
structure RulesConfig where
  dwell_time_limits : Option (List (String × Int))
  deriving DecidableEq, Repr

/-- The empty configuration dictionary `{}`. -/
def emptyRules : RulesConfig := ⟨none⟩

/-- Python `dict.get(key, default)` on a string-keyed association list. -/
def dictGet (l : List (String × Int)) (key : String) (default : Int) : Int :=
  match l.find? (fun p => p.1 == key) with
  | some p => p.2
  | none => default

/-- Outcome of probing and reading the rules file at `self.rules_path`:
the file may be missing (`exists()` is false), existing but unreadable
(`open` raises `OSError`), readable with `yaml.safe_load` returning
`None` (blank document), parsed to a mapping, or malformed
(`yaml.safe_load` raises `yaml.YAMLError`). -/
inductive YamlReadResult where
  | fileMissing
  | readError
  | parsedNone
  | parsed (r : RulesConfig)
  | parseError
  deriving DecidableEq, Repr

/-- Model of `RulesEngine._load_rules` (lines 15-19), with the
filesystem and YAML parser outcomes made explicit.  Only a missing file
is tolerated (`if not self.rules_path.exists(): return {}`), and only a
document parsing to `None` is defaulted (`yaml.safe_load(file) or {}`).
An existing but unreadable file makes `open` raise `OSError` and
malformed YAML makes `safe_load` raise `yaml.YAMLError`; neither is
caught, so both propagate — modelled as `Except.error`. -/
def load_rules : YamlReadResult → Except String RulesConfig
  | .fileMissing => .ok emptyRules
  | .readError => .error "OSError raised by open"
  | .parsedNone => .ok emptyRules
  | .parsed r => .ok r
  | .parseError => .error "YAMLError raised by yaml.safe_load"

/-- Model of `RulesEngine`: after construction it is just its loaded rules. -/
structure RulesEngine where
  rules : RulesConfig
  deriving DecidableEq, Repr

/-- Lookup `self.rules.get("dwell_time_limits", {}).get(key, 900)`
(lines 25 and 87). -/
def RulesEngine.dwellLimit (e : RulesEngine) (key : String) : Int :=
  dictGet (e.rules.dwell_time_limits.getD []) key 900

/-- Python's `str.endswith`, modelled over the character lists of the
two strings (Lean's byte-based `String.endsWith` is opaque to the
kernel; suffix-of on the character lists is semantically identical). -/
def strEndsWith (s suffix : String) : Bool :=
  List.isSuffixOf suffix.data s.data

/-- Status derivation of `RulesEngine.evaluate`, lines 40-51: the
`if/elif` chain mapping the accumulated reason codes to
(status, confidence). -/
def deriveStatusBase (reason_codes : List String) : Status × ℚ :=
  if reason_codes = [] then
    (.legal, 0.95)
  else if "critical_obstruction" ∈ reason_codes ∨
      "double_parking_detected" ∈ reason_codes then
    (.likely_illegal, 0.92)
  else if reason_codes.any (fun code => strEndsWith code "lane_occupied") then
    (.likely_illegal, 0.88)
  else
    (.uncertain, 0.75)

/-- Model of `RulesEngine.evaluate` (lines 21-58).  The sequential
`reason_codes.append` calls become list concatenation in program
order. -/
def RulesEngine.evaluate (e : RulesEngine) (frame : FrameContext)
    (observation : VehicleObservation) : LegalityDecision :=
  let dwell_limit := e.dwellLimit observation.vehicle_type.toStr
  let reason_codes : List String :=
    (if observation.is_double_parked then ["double_parking_detected"] else []) ++
    (if observation.is_obstructing then ["critical_obstruction"] else []) ++
    (if observation.lane_type = .bus ∨ observation.lane_type = .bike then
      [observation.lane_type.toStr ++ "_lane_occupied"] else []) ++
    (if observation.dwell_time_seconds > dwell_limit then
      ["dwell_time_exceeded"] else []) ++
    (if (0 ≤ frame.timestamp_utc.hour ∧ frame.timestamp_utc.hour < 6) ∧
        observation.vehicle_type = .commercial then
      ["overnight_commercial_restriction"] else [])
  let sc := deriveStatusBase reason_codes
  { track_id := observation.track_id
    status := sc.1
    reason_codes := reason_codes
    confidence := sc.2 }

/-- Status re-derivation of `RulesEngine.evaluate_with_zone`,
lines 92-112.  Note the broader suffix `"_occupied"` and the five-code
critical list, both differing from the base pass. -/
def deriveStatusZone (reason_codes : List String) : Status × ℚ :=
  if reason_codes = [] then
    (.legal, 0.95)
  else if ["fire_hydrant_zone_violation",
      "no_parking_zone_violation",
      "travel_lane_violation",
      "double_parking_detected",
      "critical_obstruction"].any (fun code => code ∈ reason_codes) then
    (.likely_illegal, 0.92)
  else if reason_codes.any (fun code => strEndsWith code "_occupied") then
    (.likely_illegal, 0.88)
  else
    (.uncertain, 0.75)

/-- Model of `RulesEngine.evaluate_with_zone` (lines 60-119). -/
def RulesEngine.evaluate_with_zone (e : RulesEngine) (frame : FrameContext)
    (observation : VehicleObservation) (zone : Option ZoneDefinition) :
    LegalityDecision :=
  let decision := e.evaluate frame observation
  match zone with
  | none => decision
  | some zone =>
    let rc0 := decision.reason_codes
    let rc1 := if zone.zone_type = .no_parking then
      rc0 ++ ["no_parking_zone_violation"] else rc0
    let rc2 := if zone.zone_type = .fire_hydrant then
      rc1 ++ ["fire_hydrant_zone_violation"] else rc1
    let rc3 := if zone.zone_type = .travel_lane then
      rc2 ++ ["travel_lane_violation"] else rc2
    let rc4 := if zone.zone_type = .bus_lane ∧ observation.vehicle_type ≠ .bus ∧
        "bus_lane_occupied" ∉ rc3 then
      rc3 ++ ["bus_lane_occupied"] else rc3
    let rc5 := if zone.zone_type = .bike_lane ∧ observation.vehicle_type ≠ .bike ∧
        "bike_lane_occupied" ∉ rc4 then
      rc4 ++ ["bike_lane_occupied"] else rc4
    let rc6 := if zone.zone_type = .loading_zone ∧
        observation.vehicle_type = .passenger ∧
        observation.dwell_time_seconds > e.dwellLimit "passenger" then
      rc5 ++ ["loading_zone_passenger_overstay"] else rc5
    let sc := deriveStatusZone rc6
    { track_id := observation.track_id
      status := sc.1
      reason_codes := rc6
      confidence := sc.2 }

end CurbRules

namespace CurbRules

/-! ## Helper lemmas shared across the claims -/

/-- The severity ordering of statuses stated by the spec:
legal < uncertain < likely_illegal (`in_transit` is never produced by the
engine; it sits above only so that the rank function is total). -/
def severityRank : Status → Nat
  | .legal => 0
  | .uncertain => 1
  | .likely_illegal => 2
  | .in_transit => 3

/-- Every reason code the base pass can emit. -/
def baseCodeUniverse : List String :=
  ["double_parking_detected", "critical_obstruction", "bus_lane_occupied",
   "bike_lane_occupied", "dwell_time_exceeded", "overnight_commercial_restriction"]

theorem deriveStatusBase_ne_in_transit (rc : List String) :
    (deriveStatusBase rc).1 ≠ Status.in_transit := by
  unfold deriveStatusBase
  split
  · simp
  · split
    · simp
    · split
      · simp
      · simp

theorem deriveStatusZone_ne_in_transit (rc : List String) :
    (deriveStatusZone rc).1 ≠ Status.in_transit := by
  unfold deriveStatusZone
  split
  · simp
  · split
    · simp
    · split
      · simp
      · simp

theorem severityRank_le_two (s : Status) (h : s ≠ Status.in_transit) :
    severityRank s ≤ 2 := by
  cases s <;> simp [severityRank] at h ⊢

theorem evaluate_status_eq (e : RulesEngine) (f : FrameContext)
    (o : VehicleObservation) :
    (e.evaluate f o).status = (deriveStatusBase (e.evaluate f o).reason_codes).1 := rfl

theorem evaluate_confidence_eq (e : RulesEngine) (f : FrameContext)
    (o : VehicleObservation) :
    (e.evaluate f o).confidence =
      (deriveStatusBase (e.evaluate f o).reason_codes).2 := rfl

/-! ## Claims -/

/-- C1: `evaluate` collects reason codes in the exact order
double-parking, obstruction, bus/bike lane, dwell-time, overnight
commercial, each condition checked independently, and echoes the
observation's `track_id`. -/
theorem C1_reason_code_order (e : RulesEngine) (f : FrameContext)
    (o : VehicleObservation) :
    (e.evaluate f o).reason_codes =
      (if o.is_double_parked then ["double_parking_detected"] else []) ++
      (if o.is_obstructing then ["critical_obstruction"] else []) ++
      (if o.lane_type = .bus ∨ o.lane_type = .bike then
        [o.lane_type.toStr ++ "_lane_occupied"] else []) ++
      (if o.dwell_time_seconds > e.dwellLimit o.vehicle_type.toStr then
        ["dwell_time_exceeded"] else []) ++
      (if f.timestamp_utc.hour < 6 ∧ o.vehicle_type = .commercial then
        ["overnight_commercial_restriction"] else []) ∧
    (e.evaluate f o).track_id = o.track_id := by
  refine ⟨?_, rfl⟩
  show (if o.is_double_parked then ["double_parking_detected"] else []) ++ _ ++ _ ++ _ ++ _ = _
  simp [Nat.zero_le]

/-- C2: `evaluate` derives status and confidence from the accumulated
reason-code set by the first matching rule: empty → legal/0.95;
critical_obstruction or double_parking_detected present →
likely_illegal/0.92; any code ending in "lane_occupied" →
likely_illegal/0.88; otherwise uncertain/0.75.  Totality (no exception
on any valid input) holds because `evaluate` is a total function. -/
theorem C2_status_derivation (e : RulesEngine) (f : FrameContext)
    (o : VehicleObservation) :
    ((e.evaluate f o).status, (e.evaluate f o).confidence) =
      (let rc := (e.evaluate f o).reason_codes
       if rc = [] then ((Status.legal : Status), (0.95 : ℚ))
       else if "critical_obstruction" ∈ rc ∨ "double_parking_detected" ∈ rc then
         (Status.likely_illegal, (0.92 : ℚ))
       else if rc.any (fun code => strEndsWith code "lane_occupied") then
         (Status.likely_illegal, (0.88 : ℚ))
       else (Status.uncertain, (0.75 : ℚ))) := rfl

/-- C5: with no zone supplied, `evaluate_with_zone` returns exactly the
base decision of `evaluate` (hence equal track_id, status, reason codes
and confidence). -/
theorem C5_none_zone_is_base (e : RulesEngine) (f : FrameContext)
    (o : VehicleObservation) :
    e.evaluate_with_zone f o none = e.evaluate f o := rfl

/-- C7 counterexample: the claim as frozen says a missing **or
unreadable** configuration source yields the empty rules mapping rather
than an error, but `_load_rules` only guards `exists()`: an existing
but unreadable file raises `OSError` from `open` and malformed YAML
raises `yaml.YAMLError` from `safe_load`, both uncaught — the loader
errors instead of returning the empty mapping on those inputs. -/
theorem C7_unreadable_raises :
    load_rules YamlReadResult.readError =
      Except.error "OSError raised by open" ∧
    load_rules YamlReadResult.parseError =
      Except.error "YAMLError raised by yaml.safe_load" ∧
    load_rules YamlReadResult.readError ≠ Except.ok emptyRules ∧
    load_rules YamlReadResult.parseError ≠ Except.ok emptyRules := by
  refine ⟨rfl, rfl, ?_, ?_⟩ <;> simp [load_rules]

/-- C7 (amended): a missing configuration source — or one whose
document parses to `None` — loads as the empty rules mapping, not an
error; with the empty mapping every vehicle-type dwell limit falls back
to the literal 900; and an observation with vehicle_type "scooter" and
dwell_time_seconds 901 receives the "dwell_time_exceeded" reason code
from `evaluate` in any frame. -/
theorem C7_config_defaults (f : FrameContext) :
    load_rules YamlReadResult.fileMissing = Except.ok emptyRules ∧
    load_rules YamlReadResult.parsedNone = Except.ok emptyRules ∧
    (∀ key : String, (RulesEngine.mk emptyRules).dwellLimit key = 900) ∧
    "dwell_time_exceeded" ∈
      ((RulesEngine.mk emptyRules).evaluate f
        { track_id := "t", vehicle_type := .scooter, lane_type := .parking,
          dwell_time_seconds := 901 }).reason_codes := by
  refine ⟨rfl, rfl, fun key => rfl, ?_⟩
  simp [RulesEngine.evaluate, RulesEngine.dwellLimit, emptyRules, dictGet]

/-- C8: for a fixed loaded rule configuration the engine is
deterministic: any two engines holding equal configurations return
identical decisions from `evaluate` and `evaluate_with_zone` on
identical inputs (the embedding is purely functional, so no call
mutates the configuration, frame, observation or zone). -/
theorem C8_deterministic (e1 e2 : RulesEngine) (f : FrameContext)
    (o : VehicleObservation) (z : Option ZoneDefinition)
    (h : e1.rules = e2.rules) :
    e1.evaluate f o = e2.evaluate f o ∧
    e1.evaluate_with_zone f o z = e2.evaluate_with_zone f o z := by
  cases e1
  cases e2
  cases h
  exact ⟨rfl, rfl⟩

/-- Witness for C8 at a concrete configuration and input. -/
theorem C8_deterministic_witness :
    (RulesEngine.mk ⟨some [("passenger", 600)]⟩).evaluate
        ⟨"f1", "cam1", ⟨12⟩, .manhattan, "s1"⟩
        { track_id := "t1", vehicle_type := .passenger, lane_type := .parking } =
      (RulesEngine.mk ⟨some [("passenger", 600)]⟩).evaluate
        ⟨"f1", "cam1", ⟨12⟩, .manhattan, "s1"⟩
        { track_id := "t1", vehicle_type := .passenger, lane_type := .parking } ∧
    (RulesEngine.mk ⟨some [("passenger", 600)]⟩).evaluate_with_zone
        ⟨"f1", "cam1", ⟨12⟩, .manhattan, "s1"⟩
        { track_id := "t1", vehicle_type := .passenger, lane_type := .parking }
        none =
      (RulesEngine.mk ⟨some [("passenger", 600)]⟩).evaluate_with_zone
        ⟨"f1", "cam1", ⟨12⟩, .manhattan, "s1"⟩
        { track_id := "t1", vehicle_type := .passenger, lane_type := .parking }
        none :=
  C8_deterministic (RulesEngine.mk ⟨some [("passenger", 600)]⟩)
    (RulesEngine.mk ⟨some [("passenger", 600)]⟩)
    ⟨"f1", "cam1", ⟨12⟩, .manhattan, "s1"⟩
    { track_id := "t1", vehicle_type := .passenger, lane_type := .parking }
    none rfl

/-- C10: neither entry point ever returns status "in_transit": every
decision's status is legal, likely_illegal or uncertain. -/
theorem C10_no_in_transit (e : RulesEngine) (f : FrameContext)
    (o : VehicleObservation) (z : Option ZoneDefinition) :
    (e.evaluate f o).status ∈
      [Status.legal, Status.likely_illegal, Status.uncertain] ∧
    (e.evaluate_with_zone f o z).status ∈
      [Status.legal, Status.likely_illegal, Status.uncertain] := by
  have hb : ∀ s : Status, s ≠ Status.in_transit →
      s ∈ [Status.legal, Status.likely_illegal, Status.uncertain] := by
    intro s hs
    cases s <;> simp at hs ⊢
  constructor
  · exact hb _ (evaluate_status_eq e f o ▸ deriveStatusBase_ne_in_transit _)
  · cases z with
    | none => exact hb _ (evaluate_status_eq e f o ▸ deriveStatusBase_ne_in_transit _)
    | some z => exact hb _ (deriveStatusZone_ne_in_transit _)

/-! ## Further helper lemmas -/

theorem evaluate_reason_codes_eq (e : RulesEngine) (f : FrameContext)
    (o : VehicleObservation) :
    (e.evaluate f o).reason_codes =
      (if o.is_double_parked then ["double_parking_detected"] else []) ++
      (if o.is_obstructing then ["critical_obstruction"] else []) ++
      (if o.lane_type = .bus ∨ o.lane_type = .bike then
        [o.lane_type.toStr ++ "_lane_occupied"] else []) ++
      (if o.dwell_time_seconds > e.dwellLimit o.vehicle_type.toStr then
        ["dwell_time_exceeded"] else []) ++
      (if (0 ≤ f.timestamp_utc.hour ∧ f.timestamp_utc.hour < 6) ∧
          o.vehicle_type = .commercial then
        ["overnight_commercial_restriction"] else []) := rfl

theorem evaluate_codes_mem (e : RulesEngine) (f : FrameContext)
    (o : VehicleObservation) :
    ∀ c ∈ (e.evaluate f o).reason_codes, c ∈ baseCodeUniverse := by
  intro c hc
  rw [evaluate_reason_codes_eq] at hc
  simp only [List.mem_append] at hc
  rcases hc with ((((hc | hc) | hc) | hc) | hc)
  · split at hc
    · simp at hc; subst hc; decide
    · simp at hc
  · split at hc
    · simp at hc; subst hc; decide
    · simp at hc
  · split at hc
    · simp at hc
      subst hc
      rename_i hlane
      rcases hlane with hl | hl <;> rw [hl] <;> decide
    · simp at hc
  · split at hc
    · simp at hc; subst hc; decide
    · simp at hc
  · split at hc
    · simp at hc; subst hc; decide
    · simp at hc

theorem strEndsWith_agree (c : String) (h : c ∈ baseCodeUniverse) :
    strEndsWith c "_occupied" = strEndsWith c "lane_occupied" := by
  simp [baseCodeUniverse] at h
  rcases h with rfl | rfl | rfl | rfl | rfl | rfl <;> decide

theorem deriveStatus_agree (rc : List String)
    (h : ∀ c ∈ rc, c ∈ baseCodeUniverse) :
    deriveStatusZone rc = deriveStatusBase rc := by
  unfold deriveStatusBase deriveStatusZone
  by_cases h0 : rc = []
  · simp [h0]
  · rw [if_neg h0, if_neg h0]
    have hfh : "fire_hydrant_zone_violation" ∉ rc := fun hm => by
      have hu := h _ hm; revert hu; decide
    have hnp : "no_parking_zone_violation" ∉ rc := fun hm => by
      have hu := h _ hm; revert hu; decide
    have htl : "travel_lane_violation" ∉ rc := fun hm => by
      have hu := h _ hm; revert hu; decide
    have h3 : (rc.any fun code => strEndsWith code "_occupied") =
        (rc.any fun code => strEndsWith code "lane_occupied") := by
      rw [Bool.eq_iff_iff]
      simp only [List.any_eq_true]
      constructor
      · rintro ⟨x, hx, hp⟩
        exact ⟨x, hx, (strEndsWith_agree x (h x hx)) ▸ hp⟩
      · rintro ⟨x, hx, hp⟩
        exact ⟨x, hx, (strEndsWith_agree x (h x hx)) ▸ hp⟩
    by_cases hco : "critical_obstruction" ∈ rc
    · simp [hco]
    · by_cases hdp : "double_parking_detected" ∈ rc
      · simp [hco, hdp]
      · simp [hco, hdp, hfh, hnp, htl, h3]

theorem deriveStatusZone_critical (rc : List String)
    (h : "no_parking_zone_violation" ∈ rc ∨ "fire_hydrant_zone_violation" ∈ rc ∨
      "travel_lane_violation" ∈ rc) :
    (deriveStatusZone rc).1 = Status.likely_illegal := by
  have hne : rc ≠ [] := by
    rcases h with h | h | h <;> exact List.ne_nil_of_mem h
  unfold deriveStatusZone
  rw [if_neg hne, if_pos (by simp; tauto)]

theorem deriveStatusZone_or_form (rc : List String) :
    deriveStatusZone rc =
      (if rc = [] then ((Status.legal : Status), (0.95 : ℚ))
       else if "fire_hydrant_zone_violation" ∈ rc ∨
           "no_parking_zone_violation" ∈ rc ∨ "travel_lane_violation" ∈ rc ∨
           "double_parking_detected" ∈ rc ∨ "critical_obstruction" ∈ rc then
         (Status.likely_illegal, (0.92 : ℚ))
       else if rc.any (fun code => strEndsWith code "_occupied") then
         (Status.likely_illegal, (0.88 : ℚ))
       else (Status.uncertain, (0.75 : ℚ))) := by
  unfold deriveStatusZone
  by_cases h0 : rc = []
  · simp [h0]
  · rw [if_neg h0, if_neg h0]
    by_cases h2 : "fire_hydrant_zone_violation" ∈ rc ∨
        "no_parking_zone_violation" ∈ rc ∨ "travel_lane_violation" ∈ rc ∨
        "double_parking_detected" ∈ rc ∨ "critical_obstruction" ∈ rc
    · rw [if_pos h2, if_pos (by simp; tauto)]
    · rw [if_neg h2, if_neg (by simp; tauto)]

/-! ## Remaining claims -/

/-- C3: with a zone supplied, `evaluate_with_zone` first computes the
base decision, then layers zone codes by zone_type (no_parking,
fire_hydrant and travel_lane append their violation codes; bus_lane and
bike_lane append their occupied code only for a non-matching vehicle
type and only if not already present; loading_zone appends the
passenger-overstay code iff the vehicle is a passenger over the
configured "passenger" limit), then re-derives status and confidence
over the combined set: empty → legal/0.95, any of the five critical
codes → likely_illegal/0.92, any code ending in "_occupied" →
likely_illegal/0.88, otherwise uncertain/0.75. -/
theorem C3_zone_layering (e : RulesEngine) (f : FrameContext)
    (o : VehicleObservation) (z : ZoneDefinition) :
    e.evaluate_with_zone f o (some z) =
      (let rc0 := (e.evaluate f o).reason_codes
       let rc1 := if z.zone_type = .no_parking then
         rc0 ++ ["no_parking_zone_violation"] else rc0
       let rc2 := if z.zone_type = .fire_hydrant then
         rc1 ++ ["fire_hydrant_zone_violation"] else rc1
       let rc3 := if z.zone_type = .travel_lane then
         rc2 ++ ["travel_lane_violation"] else rc2
       let rc4 := if z.zone_type = .bus_lane ∧ o.vehicle_type ≠ .bus ∧
           "bus_lane_occupied" ∉ rc3 then rc3 ++ ["bus_lane_occupied"] else rc3
       let rc5 := if z.zone_type = .bike_lane ∧ o.vehicle_type ≠ .bike ∧
           "bike_lane_occupied" ∉ rc4 then rc4 ++ ["bike_lane_occupied"] else rc4
       let rc6 := if z.zone_type = .loading_zone ∧ o.vehicle_type = .passenger ∧
           o.dwell_time_seconds > e.dwellLimit "passenger" then
         rc5 ++ ["loading_zone_passenger_overstay"] else rc5
       let sc :=
         if rc6 = [] then ((Status.legal : Status), (0.95 : ℚ))
         else if "fire_hydrant_zone_violation" ∈ rc6 ∨
             "no_parking_zone_violation" ∈ rc6 ∨ "travel_lane_violation" ∈ rc6 ∨
             "double_parking_detected" ∈ rc6 ∨ "critical_obstruction" ∈ rc6 then
           (Status.likely_illegal, (0.92 : ℚ))
         else if rc6.any (fun code => strEndsWith code "_occupied") then
           (Status.likely_illegal, (0.88 : ℚ))
         else (Status.uncertain, (0.75 : ℚ))
       ⟨o.track_id, sc.1, rc6, sc.2⟩) := by
  simp only [RulesEngine.evaluate_with_zone]
  rw [deriveStatusZone_or_form]

/-- C4: scenario C — a bus observed in a bus lane, evaluated with a
bus_lane zone: the base pass appends "bus_lane_occupied" (the base
check looks only at lane_type), the zone pass does not re-append it
(vehicle_type is "bus"), and `evaluate_with_zone` returns reason codes
exactly ["bus_lane_occupied"] with status likely_illegal and confidence
0.88 (re-derivation via the "_occupied" suffix). -/
theorem C4_scenario_bus_in_bus_lane (e : RulesEngine) (f : FrameContext)
    (tid zid lbl : String) (poly : List (ℚ × ℚ))
    (h : 0 ≤ e.dwellLimit "bus") :
    (e.evaluate f
      { track_id := tid, vehicle_type := .bus, lane_type := .bus }).reason_codes =
      ["bus_lane_occupied"] ∧
    e.evaluate_with_zone f
      { track_id := tid, vehicle_type := .bus, lane_type := .bus }
      (some ⟨zid, .bus_lane, poly, lbl⟩) =
      ⟨tid, .likely_illegal, ["bus_lane_occupied"], 0.88⟩ := by
  have hcodes : (e.evaluate f
      { track_id := tid, vehicle_type := .bus, lane_type := .bus }).reason_codes =
      ["bus_lane_occupied"] := by
    simp [RulesEngine.evaluate, not_lt.mpr h]
    exact ⟨rfl, h⟩
  refine ⟨hcodes, ?_⟩
  simp only [RulesEngine.evaluate_with_zone]
  simp [hcodes]
  exact ⟨rfl, rfl⟩

/-- Witness for C4 with the empty configuration (bus dwell limit 900). -/
theorem C4_scenario_bus_in_bus_lane_witness :
    0 ≤ (RulesEngine.mk emptyRules).dwellLimit "bus" ∧
    ((RulesEngine.mk emptyRules).evaluate
      ⟨"f1", "cam1", ⟨12⟩, .manhattan, "s1"⟩
      { track_id := "t1", vehicle_type := .bus,
        lane_type := .bus }).reason_codes = ["bus_lane_occupied"] ∧
    (RulesEngine.mk emptyRules).evaluate_with_zone
      ⟨"f1", "cam1", ⟨12⟩, .manhattan, "s1"⟩
      { track_id := "t1", vehicle_type := .bus, lane_type := .bus }
      (some ⟨"z1", .bus_lane, [], ""⟩) =
      ⟨"t1", .likely_illegal, ["bus_lane_occupied"], 0.88⟩ :=
  ⟨by decide,
   C4_scenario_bus_in_bus_lane (RulesEngine.mk emptyRules)
     ⟨"f1", "cam1", ⟨12⟩, .manhattan, "s1"⟩ "t1" "z1" "" [] (by decide)⟩

/-- C6: monotonic severity — layering a zone of type no_parking,
fire_hydrant or travel_lane never lowers the severity rank of the
status (legal < uncertain < likely_illegal) relative to the base
decision. -/
theorem C6_monotonic_severity (e : RulesEngine) (f : FrameContext)
    (o : VehicleObservation) (z : ZoneDefinition)
    (h : z.zone_type = .no_parking ∨ z.zone_type = .fire_hydrant ∨
      z.zone_type = .travel_lane) :
    severityRank (e.evaluate f o).status ≤
      severityRank (e.evaluate_with_zone f o (some z)).status := by
  have hz : (e.evaluate_with_zone f o (some z)).status = Status.likely_illegal := by
    simp only [RulesEngine.evaluate_with_zone]
    apply deriveStatusZone_critical
    rcases h with h | h | h
    · exact Or.inl (by simp [h])
    · exact Or.inr (Or.inl (by simp [h]))
    · exact Or.inr (Or.inr (by simp [h]))
  rw [hz]
  exact severityRank_le_two _
    (evaluate_status_eq e f o ▸ deriveStatusBase_ne_in_transit _)

/-- Witness for C6: a legal passenger parked in a no_parking zone. -/
theorem C6_monotonic_severity_witness :
    ((⟨"z1", .no_parking, [], ""⟩ : ZoneDefinition).zone_type = .no_parking ∨
      (⟨"z1", .no_parking, [], ""⟩ : ZoneDefinition).zone_type = .fire_hydrant ∨
      (⟨"z1", .no_parking, [], ""⟩ : ZoneDefinition).zone_type = .travel_lane) ∧
    severityRank ((RulesEngine.mk emptyRules).evaluate
        ⟨"f1", "cam1", ⟨12⟩, .manhattan, "s1"⟩
        { track_id := "t1", vehicle_type := .passenger,
          lane_type := .parking }).status ≤
      severityRank ((RulesEngine.mk emptyRules).evaluate_with_zone
        ⟨"f1", "cam1", ⟨12⟩, .manhattan, "s1"⟩
        { track_id := "t1", vehicle_type := .passenger, lane_type := .parking }
        (some ⟨"z1", .no_parking, [], ""⟩)).status :=
  ⟨Or.inl rfl,
   C6_monotonic_severity (RulesEngine.mk emptyRules)
     ⟨"f1", "cam1", ⟨12⟩, .manhattan, "s1"⟩
     { track_id := "t1", vehicle_type := .passenger, lane_type := .parking }
     ⟨"z1", .no_parking, [], ""⟩ (Or.inl rfl)⟩

/-- C9: a zone that fires no layering rule — parking or double_parking,
bus_lane/bike_lane with a matching vehicle type, or loading_zone
without a passenger overstay — leaves the decision identical to the
base decision, because re-deriving the zone-pass rules over base-only
codes agrees with the base derivation (every base code containing
"occupied" ends in "lane_occupied"). -/
theorem C9_inert_zone_refines_base (e : RulesEngine) (f : FrameContext)
    (o : VehicleObservation) (z : ZoneDefinition)
    (h : z.zone_type = .parking ∨ z.zone_type = .double_parking ∨
      (z.zone_type = .bus_lane ∧ o.vehicle_type = .bus) ∨
      (z.zone_type = .bike_lane ∧ o.vehicle_type = .bike) ∨
      (z.zone_type = .loading_zone ∧
        ¬(o.vehicle_type = .passenger ∧
          o.dwell_time_seconds > e.dwellLimit "passenger"))) :
    e.evaluate_with_zone f o (some z) = e.evaluate f o := by
  have hagree := deriveStatus_agree _ (evaluate_codes_mem e f o)
  simp only [RulesEngine.evaluate_with_zone]
  rcases h with hz | hz | ⟨hz, hv⟩ | ⟨hz, hv⟩ | ⟨hz, hv⟩
  · simp [hz, hagree]
    rfl
  · simp [hz, hagree]
    rfl
  · simp [hz, hv, hagree]
    rfl
  · simp [hz, hv, hagree]
    rfl
  · simp [hz]
    rw [if_neg hv, hagree]
    rfl

/-- Witness for C9: a double-parked commercial vehicle in a plain
parking zone gets exactly the base decision. -/
theorem C9_inert_zone_refines_base_witness :
    ((⟨"z1", .parking, [], ""⟩ : ZoneDefinition).zone_type = .parking ∨
      (⟨"z1", .parking, [], ""⟩ : ZoneDefinition).zone_type = .double_parking ∨
      ((⟨"z1", .parking, [], ""⟩ : ZoneDefinition).zone_type = .bus_lane ∧
        VehicleType.commercial = .bus) ∨
      ((⟨"z1", .parking, [], ""⟩ : ZoneDefinition).zone_type = .bike_lane ∧
        VehicleType.commercial = .bike) ∨
      ((⟨"z1", .parking, [], ""⟩ : ZoneDefinition).zone_type = .loading_zone ∧
        ¬(VehicleType.commercial = .passenger ∧ (50 : Int) >
          (RulesEngine.mk emptyRules).dwellLimit "passenger"))) ∧
    (RulesEngine.mk emptyRules).evaluate_with_zone
      ⟨"f1", "cam1", ⟨12⟩, .manhattan, "s1"⟩
      { track_id := "t1", vehicle_type := .commercial, lane_type := .travel,
        is_double_parked := true, dwell_time_seconds := 50 }
      (some ⟨"z1", .parking, [], ""⟩) =
      (RulesEngine.mk emptyRules).evaluate
        ⟨"f1", "cam1", ⟨12⟩, .manhattan, "s1"⟩
        { track_id := "t1", vehicle_type := .commercial, lane_type := .travel,
          is_double_parked := true, dwell_time_seconds := 50 } :=
  ⟨Or.inl rfl,
   C9_inert_zone_refines_base (RulesEngine.mk emptyRules)
     ⟨"f1", "cam1", ⟨12⟩, .manhattan, "s1"⟩
     { track_id := "t1", vehicle_type := .commercial, lane_type := .travel,
       is_double_parked := true, dwell_time_seconds := 50 }
     ⟨"z1", .parking, [], ""⟩ (Or.inl rfl)⟩

end CurbRules
